import Mathlib

/-
  Shallow embedding of the AI scoring server's DEX reputation pipeline
  (app/models/dex_model.py) and of the Kafka stream runner's consume loop
  (app/services/kafka_service.py).

  Conventions:
  - Python floats are modelled as exact rationals.
  - Pandas DataFrames are modelled as lists of normalized rows; column
    selections become list filters, sums become list sums, nunique becomes
    dedup length.
  - The wall-clock time read by the holding-time computation is passed in
    explicitly as a parameter named now.
  - Exceptions and missing-key outcomes are modelled with Option and Except.
-/

namespace AiScoring

/-- Mirrors the TokenAmount shape of app/utils/types.py: an optional token
leg whose absent numeric fields default to 0 and whose absent symbol
defaults to the empty string (tx.get(..., {}) or {} in the source). -/
structure TokenAmount where
  amountUSD : ℚ := 0
  symbol : String := ""
deriving DecidableEq

/-- One raw transaction inside a protocol group, per app/utils/types.py. -/
structure DexTransaction where
  document_id : String := ""
  action : String := ""
  timestamp : ℚ := 0
  protocol : String := ""
  poolId : String := ""
  poolName : String := ""
  tokenIn : Option TokenAmount := none
  tokenOut : Option TokenAmount := none
  token0 : Option TokenAmount := none
  token1 : Option TokenAmount := none
deriving DecidableEq

/-- One protocol-tagged transaction group of the inbound message. -/
structure ProtocolData where
  protocolType : String := ""
  transactions : List DexTransaction := []
deriving DecidableEq

/-- The inbound wallet message: wallet address plus protocol groups. -/
structure WalletMessage where
  wallet_address : String := ""
  data : List ProtocolData := []
deriving DecidableEq

/-- A normalized row produced by DexModel.preprocess_dex_transactions.
Rows of unrecognized actions carry no amount_usd and no token symbols
(the source simply omits those dict keys). The derived display-only
datetime column is not modelled (it is unused by scoring). -/
structure Row where
  wallet_address : String := ""
  document_id : String := ""
  action : String := ""
  timestamp : ℚ := 0
  protocol : String := ""
  pool_id : String := ""
  pool_name : String := ""
  amount_usd : Option ℚ := none
  token_in_symbol : Option String := none
  token_out_symbol : Option String := none
  token0_symbol : Option String := none
  token1_symbol : Option String := none
deriving DecidableEq

/-- The per-transaction body of DexModel.preprocess_dex_transactions:
classify by action; swap rows take max of the two leg USD values,
deposit and withdraw rows take the sum of the two leg USD values,
any other action yields a row without amount or symbols. -/
def normalizeTx (wa : String) (tx : DexTransaction) : Row :=
  let base : Row :=
    { wallet_address := wa, document_id := tx.document_id, action := tx.action,
      timestamp := tx.timestamp, protocol := tx.protocol,
      pool_id := tx.poolId, pool_name := tx.poolName }
  if tx.action = "swap" then
    let token_in := tx.tokenIn.getD {}
    let token_out := tx.tokenOut.getD {}
    { base with
      amount_usd := some (max token_in.amountUSD token_out.amountUSD),
      token_in_symbol := some token_in.symbol,
      token_out_symbol := some token_out.symbol }
  else if tx.action = "deposit" ∨ tx.action = "withdraw" then
    let token0 := tx.token0.getD {}
    let token1 := tx.token1.getD {}
    { base with
      amount_usd := some (token0.amountUSD + token1.amountUSD),
      token0_symbol := some token0.symbol,
      token1_symbol := some token1.symbol }
  else
    base

/-- DexModel.preprocess_dex_transactions: keep only groups whose
protocolType equals "dexes", normalize each of their transactions in
order. -/
def preprocess_dex_transactions (w : WalletMessage) : List Row :=
  (w.data.filter (fun g => g.protocolType = "dexes")).flatMap
    (fun g => g.transactions.map (normalizeTx w.wallet_address))

/-- Minimum of a list of rationals, as a pandas series min: none on empty. -/
def listMin : List ℚ → Option ℚ
  | [] => none
  | x :: xs => some (xs.foldl min x)

/-- Maximum of a list of rationals, as a pandas series max: none on empty. -/
def listMax : List ℚ → Option ℚ
  | [] => none
  | x :: xs => some (xs.foldl max x)

/-- The LP feature record returned by DexModel.calculate_lp_features.
Field defaults are 0 so that the default instance plays the role of the
empty dict read through dict.get(key, 0). -/
structure LPFeatures where
  total_deposit_usd : ℚ := 0
  total_withdraw_usd : ℚ := 0
  num_deposits : ℕ := 0
  num_withdraws : ℕ := 0
  withdraw_ratio : ℚ := 0
  avg_hold_time_days : ℚ := 0
  account_age_days : ℚ := 0
  unique_pools : ℕ := 0
deriving DecidableEq

/-- The swap feature record returned by DexModel.calculate_swap_features. -/
structure SwapFeatures where
  total_swap_volume : ℚ := 0
  num_swaps : ℕ := 0
  unique_pools_swapped : ℕ := 0
  avg_swap_size : ℚ := 0
  token_diversity_score : ℕ := 0
  swap_frequency_score : ℚ := 0
deriving DecidableEq

/-- DexModel.calculate_holding_time: for each deposit, the gap to the
earliest strictly later withdraw, falling back to the gap to the current
time when no later withdraw exists; averaged over deposits, 0 when there
are none. -/
def calculate_holding_time (now : ℚ) (deposits withdraws : List Row) : ℚ :=
  if deposits = [] then 0
  else
    let holding_times := deposits.map (fun d =>
      let future_withdraws := withdraws.filter (fun wr => wr.timestamp > d.timestamp)
      match listMin (future_withdraws.map (fun wr => wr.timestamp)) with
      | some withdraw_time => (withdraw_time - d.timestamp) / 86400
      | none => (now - d.timestamp) / 86400)
    holding_times.sum / (holding_times.length : ℚ)

/-- DexModel.calculate_lp_features: aggregates over deposit and withdraw
rows; returns none for an empty row set (the source returns an empty
dict). The pandas nunique over pool_id is the dedup length. -/
def calculate_lp_features (now : ℚ) (df : List Row) : Option LPFeatures :=
  if df = [] then none
  else
    let deposits := df.filter (fun r => r.action = "deposit")
    let withdraws := df.filter (fun r => r.action = "withdraw")
    let total_deposit_usd := (deposits.map (fun r => r.amount_usd.getD 0)).sum
    let total_withdraw_usd := (withdraws.map (fun r => r.amount_usd.getD 0)).sum
    let withdraw_ratio := if total_deposit_usd > 0 then total_withdraw_usd / total_deposit_usd else 0
    let account_age_days :=
      ((listMax (df.map (fun r => r.timestamp))).getD 0
        - (listMin (df.map (fun r => r.timestamp))).getD 0) / 86400
    some
      { total_deposit_usd := total_deposit_usd,
        total_withdraw_usd := total_withdraw_usd,
        num_deposits := deposits.length,
        num_withdraws := withdraws.length,
        withdraw_ratio := withdraw_ratio,
        avg_hold_time_days := calculate_holding_time now deposits withdraws,
        account_age_days := account_age_days,
        unique_pools := (df.map (fun r => r.pool_id)).dedup.length }

/-- Named components of the LP sub-score, per DexModel.calculate_lp_score. -/
structure LPBreakdown where
  volume_score : ℚ := 0
  frequency_score : ℚ := 0
  retention_score : ℚ := 0
  holding_score : ℚ := 0
  diversity_score : ℚ := 0
  total_lp_score : ℚ := 0
deriving DecidableEq

/-- DexModel.calculate_lp_score: capped component scores summed; an empty
feature dict yields score 0 with an empty breakdown. -/
def calculate_lp_score : Option LPFeatures → ℚ × Option LPBreakdown
  | none => (0, none)
  | some f =>
    let volume_score := min (f.total_deposit_usd / 10000 * 300) 300
    let frequency_score := min ((f.num_deposits : ℚ) * 20) 200
    let retention_score := max 0 ((1 - f.withdraw_ratio) * 250)
    let holding_score := min (f.avg_hold_time_days / 30 * 150) 150
    let diversity_score := min ((f.unique_pools : ℚ) * 20) 100
    let total := volume_score + frequency_score + retention_score + holding_score + diversity_score
    (total,
      some { volume_score := volume_score, frequency_score := frequency_score,
             retention_score := retention_score, holding_score := holding_score,
             diversity_score := diversity_score, total_lp_score := total })

/-- The fixed stablecoin set of DexModel's token diversity computation. -/
def stable_tokens : List String := ["USDC", "USDT", "DAI", "LUSD", "USDP", "TUSD", "FRAX"]

/-- DexModel token diversity: distinct in and out symbols of the swap rows,
weighted 10 per stable symbol and 15 per volatile symbol, capped at 150.
The Python set union is modelled as dedup of the concatenated symbol
lists. -/
def token_diversity (swaps : List Row) : ℕ :=
  if swaps = [] then 0
  else
    let all_tokens := ((swaps.filterMap (fun r => r.token_in_symbol))
      ++ (swaps.filterMap (fun r => r.token_out_symbol))).dedup
    let stable_count := (all_tokens.filter (fun s => s ∈ stable_tokens)).length
    let volatile_count := all_tokens.length - stable_count
    min (stable_count * 10 + volatile_count * 15) 150

/-- DexModel swap frequency: with fewer than 2 swaps the score is 0;
otherwise the mean gap in hours between timestamp-sorted consecutive
swaps selects a discrete bucket. -/
def swap_frequency (swaps : List Row) : ℚ :=
  if swaps.length < 2 then 0
  else
    let ts := List.insertionSort (· ≤ ·) (swaps.map (fun r => r.timestamp))
    let diffs := (ts.zip ts.tail).map (fun p => p.2 - p.1)
    let hours := diffs.map (fun d => d / 3600)
    let avg := hours.sum / (hours.length : ℚ)
    if avg ≤ 1 then 100
    else if avg ≤ 24 then 80
    else if avg ≤ 168 then 60
    else if avg ≤ 720 then 40
    else 20

/-- DexModel.calculate_swap_features: none for an empty row set; an
explicit all-zero record when there are rows but no swap rows; otherwise
the aggregates over the swap rows. -/
def calculate_swap_features (df : List Row) : Option SwapFeatures :=
  if df = [] then none
  else
    let swaps := df.filter (fun r => r.action = "swap")
    if swaps = [] then
      some { total_swap_volume := 0, num_swaps := 0, unique_pools_swapped := 0,
             avg_swap_size := 0, token_diversity_score := 0, swap_frequency_score := 0 }
    else
      let total_swap_volume := (swaps.map (fun r => r.amount_usd.getD 0)).sum
      let num_swaps := swaps.length
      some
        { total_swap_volume := total_swap_volume,
          num_swaps := num_swaps,
          unique_pools_swapped := (swaps.map (fun r => r.pool_id)).dedup.length,
          avg_swap_size := if num_swaps > 0 then total_swap_volume / (num_swaps : ℚ) else 0,
          token_diversity_score := token_diversity swaps,
          swap_frequency_score := swap_frequency swaps }

/-- Named components of the swap sub-score, per DexModel.calculate_swap_score. -/
structure SwapBreakdown where
  volume_score : ℚ := 0
  frequency_score : ℚ := 0
  diversity_score : ℚ := 0
  activity_score : ℚ := 0
  pool_diversity_score : ℚ := 0
  total_swap_score : ℚ := 0
deriving DecidableEq

/-- DexModel.calculate_swap_score: volume, frequency and pool diversity
are capped here; the diversity and activity components pass the feature
values through unchanged. -/
def calculate_swap_score : Option SwapFeatures → ℚ × Option SwapBreakdown
  | none => (0, none)
  | some f =>
    let volume_score := min (f.total_swap_volume / 50000 * 250) 250
    let frequency_score := min ((f.num_swaps : ℚ) * 10) 200
    let diversity_score := (f.token_diversity_score : ℚ)
    let activity_score := f.swap_frequency_score
    let pool_diversity_score := min ((f.unique_pools_swapped : ℚ) * 25) 100
    let total := volume_score + frequency_score + diversity_score + activity_score + pool_diversity_score
    (total,
      some { volume_score := volume_score, frequency_score := frequency_score,
             diversity_score := diversity_score, activity_score := activity_score,
             pool_diversity_score := pool_diversity_score, total_swap_score := total })

/-- DexModel.generate_user_tags: five independent if and elif blocks, each
appending at most one tag; the appends are modelled as concatenation of
the per-block contributions in source order. Reading a feature dict
through dict.get(key, 0) corresponds to reading the record fields, whose
defaults are 0 for the empty dict. -/
def generate_user_tags (lp_features : LPFeatures) (swap_features : SwapFeatures) : List String :=
  (if lp_features.total_deposit_usd > 100000 then ["Whale LP"]
   else if lp_features.total_deposit_usd > 10000 then ["Large LP"]
   else if lp_features.total_deposit_usd > 1000 then ["Medium LP"]
   else if lp_features.total_deposit_usd > 0 then ["Small LP"]
   else [])
  ++ (if lp_features.avg_hold_time_days > 90 then ["Long-term Holder"]
      else if lp_features.avg_hold_time_days > 30 then ["Medium-term Holder"]
      else if lp_features.avg_hold_time_days > 0 then ["Short-term Holder"]
      else [])
  ++ (if swap_features.total_swap_volume > 500000 then ["Whale Trader"]
      else if swap_features.total_swap_volume > 50000 then ["Large Trader"]
      else if swap_features.total_swap_volume > 5000 then ["Active Trader"]
      else if swap_features.total_swap_volume > 0 then ["Casual Trader"]
      else [])
  ++ (if swap_features.num_swaps > 100 then ["High Frequency Trader"]
      else if swap_features.num_swaps > 20 then ["Regular Trader"]
      else [])
  ++ (if swap_features.token_diversity_score > 100 then ["Diversified Trader"]
      else if lp_features.unique_pools > 3 then ["Multi-Pool LP"]
      else [])

/-- The merged complete-features mapping assembled by
DexModel.calculate_final_score, later augmented with the two breakdowns
by process_wallet_complete. The LP and swap feature dicts have disjoint
keys, so the merge keeps both records. -/
structure CompleteFeatures where
  lpf : Option LPFeatures := none
  swf : Option SwapFeatures := none
  user_tags : List String := []
  lp_score : ℚ := 0
  swap_score : ℚ := 0
  final_score : ℚ := 0
  lp_breakdown : Option LPBreakdown := none
  swap_breakdown : Option SwapBreakdown := none
deriving DecidableEq

/-- DexModel.calculate_final_score: weighted combination with fixed
weights 0.6 and 0.4 (exact rationals here), plus the tag list; the
feature dicts are read through dict.get defaults by the tag generator. -/
def calculate_final_score (lp_score swap_score : ℚ)
    (lp_features : Option LPFeatures) (swap_features : Option SwapFeatures) :
    ℚ × CompleteFeatures :=
  let lp_weight : ℚ := 6/10
  let swap_weight : ℚ := 4/10
  let final_score := lp_score * lp_weight + swap_score * swap_weight
  let user_tags := generate_user_tags (lp_features.getD {}) (swap_features.getD {})
  (final_score,
    { lpf := lp_features, swf := swap_features, user_tags := user_tags,
      lp_score := lp_score, swap_score := swap_score, final_score := final_score })

/-- DexModel.process_wallet_complete: preprocess, short-circuit to the
terminal failure on an empty row set, otherwise extract, score and
compose. The features dict that either carries the error key or the
complete features is modelled as an Except value. -/
def process_wallet_complete (now : ℚ) (w : WalletMessage) :
    ℚ × Except String CompleteFeatures × List Row :=
  let df := preprocess_dex_transactions w
  if df = [] then (0, Except.error "No valid transactions found", df)
  else
    let lp_features := calculate_lp_features now df
    let lp := calculate_lp_score lp_features
    let swap_features := calculate_swap_features df
    let sw := calculate_swap_score swap_features
    let fin := calculate_final_score lp.1 sw.1 lp_features swap_features
    (fin.1, Except.ok { fin.2 with lp_breakdown := lp.2, swap_breakdown := sw.2 }, df)

/-- The minimal feature subset embedded in the success payload by
DexModel.process_wallet, read from the complete features through
dict.get with 0 defaults. -/
structure PayloadFeatures where
  total_deposit_usd : ℚ := 0
  total_withdraw_usd : ℚ := 0
  num_deposits : ℕ := 0
  num_withdraws : ℕ := 0
  total_swap_volume : ℚ := 0
  num_swaps : ℕ := 0
  unique_pools : ℕ := 0
deriving DecidableEq

/-- One entry of the categories list of an outbound payload. A success
entry carries score and features; a failure entry carries error. -/
structure Category where
  category : String := "dexes"
  score : Option ℚ := none
  error : Option String := none
  transaction_count : ℕ := 0
  features : Option PayloadFeatures := none
deriving DecidableEq

/-- The outbound payload envelope built by DexModel.process_wallet. A
success payload sets zscore, a failure payload sets error. The zscore
value is modelled as the numeric score (its fixed-point 18-digit string
rendering is a display concern); processing_time_ms, a wall-clock
duration, is modelled as 0. -/
structure Payload where
  wallet_address : String := ""
  zscore : Option ℚ := none
  error : Option String := none
  timestamp : ℚ := 0
  processing_time_ms : ℕ := 0
  categories : List Category := []
deriving DecidableEq

/-- DexModel chooses the payload timestamp as the earliest normalized-row
timestamp, defaulting to the current time when there are no rows. -/
def choose_timestamp (now : ℚ) (df : List Row) : ℚ :=
  match listMin (df.map (fun r => r.timestamp)) with
  | some t => t
  | none => now

/-- The feature subset extraction of the success branch of
DexModel.process_wallet. -/
def payloadFeaturesOf (c : CompleteFeatures) : PayloadFeatures :=
  { total_deposit_usd := (c.lpf.getD {}).total_deposit_usd,
    total_withdraw_usd := (c.lpf.getD {}).total_withdraw_usd,
    num_deposits := (c.lpf.getD {}).num_deposits,
    num_withdraws := (c.lpf.getD {}).num_withdraws,
    total_swap_volume := (c.swf.getD {}).total_swap_volume,
    num_swaps := (c.swf.getD {}).num_swaps,
    unique_pools := (c.lpf.getD {}).unique_pools }

/-- DexModel.process_wallet: runs the pipeline and builds exactly one of
the success and failure payloads. The source returns the pair
(success, failure) where the unused slot is empty; that pair is modelled
with Options. The source's catch-all exception branch has no counterpart
because the embedded pipeline is total. -/
def process_wallet (now : ℚ) (w : WalletMessage) : Option Payload × Option Payload :=
  let res := process_wallet_complete now w
  match res.2.1 with
  | Except.error e =>
    (none,
      some { wallet_address := w.wallet_address, zscore := none, error := some e,
             timestamp := choose_timestamp now res.2.2, processing_time_ms := 0,
             categories := [{ category := "dexes", score := none, error := some e,
                              transaction_count := res.2.2.length, features := none }] })
  | Except.ok feats =>
    (some { wallet_address := w.wallet_address, zscore := some res.1, error := none,
            timestamp := choose_timestamp now res.2.2, processing_time_ms := 0,
            categories := [{ category := "dexes", score := some res.1, error := none,
                             transaction_count := res.2.2.length,
                             features := some (payloadFeaturesOf feats) }] },
     none)

/-!  Stream runner: app/services/kafka_service.py.

The consume loop of KafkaService is modelled as a fold over the list of
delivered inbound messages. Scoring is abstracted as a function that
either returns a score or raises (Except); transport success of one send
is a boolean parameter of the produce step. The source's outer
try/except, which ends the loop on a consumer transport fault, and its
logging are not modelled: the fold covers the messages actually
delivered. -/

/-- The counters of app/services/stats.py that the loop mutates. -/
structure KafkaStats where
  total_consumed : ℕ := 0
  total_scored : ℕ := 0
  total_failed : ℕ := 0
  total_produced : ℕ := 0
deriving DecidableEq

/-- The outbound message shape built by KafkaService.consume: the source
reads wallet_data.get("wallet"), a key the inbound schema does not
define, so the wallet slot is always absent. -/
structure OutMessage where
  wallet : Option String := none
  score : ℚ := 0
deriving DecidableEq

/-- Loop state: the shared counters plus the sequence of messages sent to
the outbound topic. -/
structure KafkaState where
  stats : KafkaStats := {}
  outbox : List OutMessage := []
deriving DecidableEq

/-- KafkaService.produce: on transport success the message is sent and
total_produced incremented; a transport failure is caught inside produce
and swallowed (logged only), leaving the state unchanged. -/
def kafkaProduce (sendOk : Bool) (m : OutMessage) (s : KafkaState) : KafkaState :=
  if sendOk then
    { stats := { s.stats with total_produced := s.stats.total_produced + 1 },
      outbox := s.outbox ++ [m] }
  else s

/-- One iteration of KafkaService.consume: count the message as consumed;
score it; on success build the output, produce it and count it as
scored; when scoring raises, the except branch only logs and increments
total_failed — no payload of any kind is produced for that wallet. -/
def consumeStep (score : WalletMessage → Except String ℚ) (sendOk : Bool)
    (s : KafkaState) (m : WalletMessage) : KafkaState :=
  let s1 : KafkaState :=
    { s with stats := { s.stats with total_consumed := s.stats.total_consumed + 1 } }
  match score m with
  | Except.ok z =>
    let out : OutMessage := { wallet := none, score := z }
    let s2 := kafkaProduce sendOk out s1
    { s2 with stats := { s2.stats with total_scored := s2.stats.total_scored + 1 } }
  | Except.error _ =>
    { s1 with stats := { s1.stats with total_failed := s1.stats.total_failed + 1 } }

/-- KafkaService.consume over a list of delivered messages, starting from
fresh counters and an empty outbox. -/
def kafkaConsume (score : WalletMessage → Except String ℚ) (sendOk : Bool)
    (msgs : List WalletMessage) : KafkaState :=
  msgs.foldl (consumeStep score sendOk) {}

/-! Predicates and concrete inputs used by the claim theorems. -/

/-- Exactly-one shape of a process_wallet result: one slot populated, the
populated payload carrying exactly one of zscore and error. -/
def exactlyOnePayload : Option Payload × Option Payload → Prop
  | (some s, none) => s.zscore.isSome = true ∧ s.error = none
  | (none, some f) => f.error.isSome = true ∧ f.zscore = none
  | (some _, some _) => False
  | (none, none) => False

/-- All four optional token legs of a transaction carry a non-negative
USD amount (absent legs default to amount 0). -/
def txAmountsNonneg (tx : DexTransaction) : Prop :=
  0 ≤ (tx.tokenIn.getD {}).amountUSD ∧ 0 ≤ (tx.tokenOut.getD {}).amountUSD ∧
    0 ≤ (tx.token0.getD {}).amountUSD ∧ 0 ≤ (tx.token1.getD {}).amountUSD

/-- The shipped sample wallet message of test_challenge.py: one swap of
two 1000 USD legs, one deposit of 250+250 USD, one withdraw of 250+250
USD, all in a single pool. -/
def sampleMsg : WalletMessage :=
  { wallet_address := "0x742d35Cc6634C0532925a3b8D4C9db96590e4265",
    data := [ { protocolType := "dexes",
                transactions := [
                  { document_id := "507f1f77bcf86cd799439011", action := "swap",
                    timestamp := 1703980800, protocol := "uniswap_v3",
                    poolId := "0x88e6a0c2ddd26feeb64f039a2c41296fcb3f5640",
                    poolName := "Uniswap V3 USDC WETH",
                    tokenIn := some { amountUSD := 1000, symbol := "USDC" },
                    tokenOut := some { amountUSD := 1000, symbol := "WETH" } },
                  { document_id := "507f1f77bcf86cd799439012", action := "deposit",
                    timestamp := 1703980900, protocol := "uniswap_v3",
                    poolId := "0x88e6a0c2ddd26feeb64f039a2c41296fcb3f5640",
                    poolName := "Uniswap V3 USDC WETH",
                    token0 := some { amountUSD := 250, symbol := "USDC" },
                    token1 := some { amountUSD := 250, symbol := "WETH" } },
                  { document_id := "507f1f77bcf86cd799439013", action := "withdraw",
                    timestamp := 1703981800, protocol := "uniswap_v3",
                    poolId := "0x88e6a0c2ddd26feeb64f039a2c41296fcb3f5640",
                    poolName := "Uniswap V3 USDC WETH",
                    token0 := some { amountUSD := 250, symbol := "USDC" },
                    token1 := some { amountUSD := 250, symbol := "WETH" } } ] } ] }

/-- Wallet message with a 100 USD deposit followed by a withdraw whose
recorded USD amount is negative: the withdraw ratio becomes -10000 and
the retention component blows past its cap. -/
def msgNegWithdraw : WalletMessage :=
  { wallet_address := "w",
    data := [ { protocolType := "dexes",
                transactions := [
                  { document_id := "a", action := "deposit", timestamp := 1000,
                    token0 := some { amountUSD := 100 } },
                  { document_id := "b", action := "withdraw", timestamp := 2000,
                    token0 := some { amountUSD := -1000000 } } ] } ] }

/-- Wallet message with a single deposit and no withdraw: its holding
time is measured against the wall clock. -/
def msgLoneDeposit : WalletMessage :=
  { wallet_address := "w",
    data := [ { protocolType := "dexes",
                transactions := [
                  { document_id := "a", action := "deposit", timestamp := 1000,
                    token0 := some { amountUSD := 100 } } ] } ] }

/-- Wallet message whose only DEX transaction has the unrecognized
action borrow. -/
def msgUnknownAction : WalletMessage :=
  { wallet_address := "w",
    data := [ { protocolType := "dexes",
                transactions := [
                  { document_id := "a", action := "borrow", timestamp := 5000,
                    poolId := "pool1" } ] } ] }

/-- Wallet message whose only group is a non-DEX protocol group. -/
def msgNonDex : WalletMessage :=
  { wallet_address := "w",
    data := [ { protocolType := "lending",
                transactions := [ { document_id := "a", action := "deposit", timestamp := 1 } ] } ] }

/-- Swap feature record whose pass-through token diversity value wildly
exceeds the 150 cap the spec states for the diversity component. -/
def swfOverDiversity : SwapFeatures :=
  { total_swap_volume := 0, num_swaps := 0, unique_pools_swapped := 0,
    avg_swap_size := 0, token_diversity_score := 1000, swap_frequency_score := 0 }

/-- The LP breakdown produced for a (present) LP feature record. -/
def lpBreakdownOf (f : LPFeatures) : LPBreakdown := ((calculate_lp_score (some f)).2).getD {}

/-- The swap breakdown produced for a (present) swap feature record. -/
def swapBreakdownOf (f : SwapFeatures) : SwapBreakdown := ((calculate_swap_score (some f)).2).getD {}

/-- LP feature record with inputs wildly above every cap threshold,
used to instantiate the component-cap theorem. -/
def lfBig : LPFeatures :=
  { total_deposit_usd := 10000000, total_withdraw_usd := 5000000,
    num_deposits := 400, num_withdraws := 300, withdraw_ratio := 1/2,
    avg_hold_time_days := 450, account_age_days := 900, unique_pools := 40 }

/-- Swap feature record with inputs wildly above every cap threshold but
with the pass-through fields inside their extractor-guaranteed ranges. -/
def sfBig : SwapFeatures :=
  { total_swap_volume := 777777777, num_swaps := 5000, unique_pools_swapped := 60,
    avg_swap_size := 155555, token_diversity_score := 150, swap_frequency_score := 100 }

/-- Inbound message standing for a wallet whose scoring raises. -/
def msgScoreRaises : WalletMessage := { wallet_address := "0xfail" }

/-- Inbound message standing for a wallet whose scoring succeeds. -/
def msgScoreOk : WalletMessage := { wallet_address := "0xok" }

/-- Scoring oracle for the consume-loop run: raises on msgScoreRaises,
returns 5 on every other wallet. -/
def scoreOracle : WalletMessage → Except String ℚ := fun w =>
  if w.wallet_address = "0xfail" then Except.error "Error processing wallet data"
  else Except.ok 5

/-- Row set with one deposit and one withdraw, used to instantiate the
withdraw-ratio theorem. -/
def dfRatio : List Row :=
  [ { action := "deposit", timestamp := 10, amount_usd := some 100 },
    { action := "withdraw", timestamp := 20, amount_usd := some 40 } ]

/-- The LP features the extractor computes on dfRatio at time 0. -/
def fRatio : LPFeatures :=
  { total_deposit_usd := 100, total_withdraw_usd := 40,
    num_deposits := 1, num_withdraws := 1, withdraw_ratio := 2/5,
    avg_hold_time_days := 1/8640, account_age_days := 1/8640, unique_pools := 1 }

/-- Row set whose single deposit row carries a negative recorded USD
amount: deposit rows exist, yet the deposit total is negative. -/
def dfNegDeposit : List Row :=
  [ { action := "deposit", timestamp := 10, amount_usd := some (-5) },
    { action := "withdraw", timestamp := 20, amount_usd := some 40 } ]

/-- The LP features the extractor computes on dfNegDeposit at time 0. -/
def fNegDeposit : LPFeatures :=
  { total_deposit_usd := -5, total_withdraw_usd := 40,
    num_deposits := 1, num_withdraws := 1, withdraw_ratio := 0,
    avg_hold_time_days := 1/8640, account_age_days := 1/8640, unique_pools := 1 }

/-! Helper lemmas about the embedding. -/

/-- Folding min over a list stays below the initial accumulator. -/
lemma foldl_min_le_init (xs : List ℚ) (x : ℚ) : xs.foldl min x ≤ x := by
  induction xs generalizing x with
  | nil => simp
  | cons y ys ih =>
    simpa using le_trans (ih (min x y)) (min_le_left x y)

/-- Folding min over a list stays below every list member. -/
lemma foldl_min_le_mem (xs : List ℚ) (x : ℚ) {y : ℚ} (hy : y ∈ xs) : xs.foldl min x ≤ y := by
  induction xs generalizing x with
  | nil => cases hy
  | cons z zs ih =>
    rcases List.mem_cons.mp hy with rfl | h
    · exact le_trans (foldl_min_le_init zs (min x y)) (min_le_right x y)
    · exact ih _ h

/-- Folding min over a list lands on the accumulator or a list member. -/
lemma foldl_min_mem (xs : List ℚ) (x : ℚ) : xs.foldl min x ∈ x :: xs := by
  induction xs generalizing x with
  | nil => simp
  | cons y ys ih =>
    simp only [List.foldl_cons]
    rcases List.mem_cons.mp (ih (min x y)) with h | h
    · rcases min_choice x y with hm | hm
      · rw [h, hm]; exact List.mem_cons_self x _
      · rw [h, hm]
        exact List.mem_cons.mpr (Or.inr (List.mem_cons_self y ys))
    · exact List.mem_cons.mpr (Or.inr (List.mem_cons.mpr (Or.inr h)))

/-- The minimum of a nonempty rational list is an element of the list. -/
lemma listMin_mem {l : List ℚ} {m : ℚ} (h : listMin l = some m) : m ∈ l := by
  cases l with
  | nil => simp [listMin] at h
  | cons x xs =>
    simp only [listMin, Option.some_inj] at h
    exact h ▸ foldl_min_mem xs x

/-- The minimum of a list is a lower bound for its members. -/
lemma listMin_le {l : List ℚ} {m x : ℚ} (h : listMin l = some m) (hx : x ∈ l) : m ≤ x := by
  cases l with
  | nil => simp [listMin] at h
  | cons a as =>
    simp only [listMin, Option.some_inj] at h
    subst h
    rcases List.mem_cons.mp hx with rfl | hx2
    · exact foldl_min_le_init as x
    · exact foldl_min_le_mem as a hx2

/-- listMin returns none exactly on the empty list. -/
lemma listMin_eq_none {l : List ℚ} : listMin l = none ↔ l = [] := by
  cases l <;> simp [listMin]

/-- A list with at most one element has no duplicates. -/
lemma nodup_of_len_le_one {l : List String} (h : l.length ≤ 1) : l.Nodup := by
  match l with
  | [] => exact List.nodup_nil
  | [a] => exact List.nodup_singleton a
  | a :: b :: t => simp at h

/-- Appending tag blocks drawn from disjoint candidate pools keeps the
no-duplicate property and the combined candidate pool. -/
lemma okTags_append {l1 l2 c1 c2 : List String}
    (h1 : l1.Nodup ∧ ∀ s ∈ l1, s ∈ c1) (h2 : l2.Nodup ∧ ∀ s ∈ l2, s ∈ c2)
    (hd : ∀ s ∈ c1, s ∉ c2) :
    (l1 ++ l2).Nodup ∧ ∀ s ∈ l1 ++ l2, s ∈ c1 ++ c2 := by
  constructor
  · exact h1.1.append h2.1 (fun a ha1 ha2 => hd a (h1.2 a ha1) (h2.2 a ha2))
  · intro s hs
    rcases List.mem_append.mp hs with h | h
    · exact List.mem_append.mpr (Or.inl (h1.2 s h))
    · exact List.mem_append.mpr (Or.inr (h2.2 s h))

/-- Five tag blocks, each of length at most one and drawn from its own
candidate pool, concatenate to at most five pairwise distinct tags. -/
lemma tags_concat_ok (b1 b2 b3 b4 b5 : List String)
    (h1 : b1.length ≤ 1 ∧ ∀ s ∈ b1, s ∈ ["Whale LP", "Large LP", "Medium LP", "Small LP"])
    (h2 : b2.length ≤ 1 ∧ ∀ s ∈ b2, s ∈ ["Long-term Holder", "Medium-term Holder", "Short-term Holder"])
    (h3 : b3.length ≤ 1 ∧ ∀ s ∈ b3, s ∈ ["Whale Trader", "Large Trader", "Active Trader", "Casual Trader"])
    (h4 : b4.length ≤ 1 ∧ ∀ s ∈ b4, s ∈ ["High Frequency Trader", "Regular Trader"])
    (h5 : b5.length ≤ 1 ∧ ∀ s ∈ b5, s ∈ ["Diversified Trader", "Multi-Pool LP"]) :
    (b1 ++ b2 ++ b3 ++ b4 ++ b5).length ≤ 5 ∧ (b1 ++ b2 ++ b3 ++ b4 ++ b5).Nodup := by
  have n1 := nodup_of_len_le_one h1.1
  have n2 := nodup_of_len_le_one h2.1
  have n3 := nodup_of_len_le_one h3.1
  have n4 := nodup_of_len_le_one h4.1
  have n5 := nodup_of_len_le_one h5.1
  have k12 := okTags_append ⟨n1, h1.2⟩ ⟨n2, h2.2⟩ (by decide)
  have k13 := okTags_append k12 ⟨n3, h3.2⟩ (by decide)
  have k14 := okTags_append k13 ⟨n4, h4.2⟩ (by decide)
  have k15 := okTags_append k14 ⟨n5, h5.2⟩ (by decide)
  refine ⟨?_, k15.1⟩
  have l1 := h1.1; have l2 := h2.1; have l3 := h3.1; have l4 := h4.1; have l5 := h5.1
  simp only [List.length_append]
  omega

/-- Every normalized row comes from a transaction of some DEX-tagged
group of the message. -/
lemma preprocess_mem {w : WalletMessage} {r : Row}
    (hr : r ∈ preprocess_dex_transactions w) :
    ∃ g ∈ w.data, g.protocolType = "dexes"
      ∧ ∃ tx ∈ g.transactions, r = normalizeTx w.wallet_address tx := by
  unfold preprocess_dex_transactions at hr
  simp only [List.mem_flatMap, List.mem_filter, List.mem_map] at hr
  obtain ⟨g, ⟨hg, hgdex⟩, tx, htx, rfl⟩ := hr
  exact ⟨g, hg, by simpa using hgdex, tx, htx, rfl⟩

/-- A normalized row keeps the transaction's action string. -/
lemma normalizeTx_action (wa : String) (tx : DexTransaction) :
    (normalizeTx wa tx).action = tx.action := by
  unfold normalizeTx
  dsimp only
  split_ifs <;> rfl

/-- A normalized row keeps the transaction's timestamp. -/
lemma normalizeTx_timestamp (wa : String) (tx : DexTransaction) :
    (normalizeTx wa tx).timestamp = tx.timestamp := by
  unfold normalizeTx
  dsimp only
  split_ifs <;> rfl

/-- Rows normalized from transactions with non-negative leg amounts
carry a non-negative USD amount. -/
lemma normalizeTx_amount_nonneg {tx : DexTransaction} (h : txAmountsNonneg tx) (wa : String) :
    0 ≤ (normalizeTx wa tx).amount_usd.getD 0 := by
  obtain ⟨h1, h2, h3, h4⟩ := h
  unfold normalizeTx
  dsimp only
  split_ifs
  · simpa using le_trans h1 (le_max_left _ _)
  · simpa using add_nonneg h3 h4
  · simp

/-- All rows of a message with non-negative token amounts have
non-negative USD amounts. -/
lemma preprocess_rows_nonneg {w : WalletMessage}
    (hamt : ∀ g ∈ w.data, ∀ tx ∈ g.transactions, txAmountsNonneg tx) :
    ∀ r ∈ preprocess_dex_transactions w, 0 ≤ r.amount_usd.getD 0 := by
  intro r hr
  obtain ⟨g, hg, _, tx, htx, rfl⟩ := preprocess_mem hr
  exact normalizeTx_amount_nonneg (hamt g hg tx htx) _

/-- All rows of a message whose timestamps do not exceed now carry
timestamps that do not exceed now. -/
lemma preprocess_rows_ts_le {w : WalletMessage} {now : ℚ}
    (hts : ∀ g ∈ w.data, ∀ tx ∈ g.transactions, tx.timestamp ≤ now) :
    ∀ r ∈ preprocess_dex_transactions w, r.timestamp ≤ now := by
  intro r hr
  obtain ⟨g, hg, _, tx, htx, rfl⟩ := preprocess_mem hr
  rw [normalizeTx_timestamp]
  exact hts g hg tx htx

/-- Summing row amounts over any filtered subset of non-negative rows is
non-negative. -/
lemma sum_amounts_nonneg {rows : List Row} (h : ∀ r ∈ rows, 0 ≤ r.amount_usd.getD 0)
    (p : Row → Bool) :
    0 ≤ ((rows.filter p).map (fun r => r.amount_usd.getD 0)).sum := by
  apply List.sum_nonneg
  intro x hx
  obtain ⟨r, hr, rfl⟩ := List.mem_map.mp hx
  exact h r (List.mem_filter.mp hr).1

/-- The holding time is non-negative when every deposit happened no
later than the current time. -/
lemma calculate_holding_time_nonneg {now : ℚ} {deposits withdraws : List Row}
    (hts : ∀ d ∈ deposits, d.timestamp ≤ now) :
    0 ≤ calculate_holding_time now deposits withdraws := by
  unfold calculate_holding_time
  split_ifs with hd
  · exact le_refl 0
  · apply div_nonneg _ (Nat.cast_nonneg _)
    apply List.sum_nonneg
    intro x hx
    obtain ⟨d, hdm, rfl⟩ := List.mem_map.mp hx
    dsimp only
    cases hmin : listMin ((withdraws.filter (fun wr => wr.timestamp > d.timestamp)).map
        (fun wr => wr.timestamp)) with
    | some wt =>
      have hwt := listMin_mem hmin
      obtain ⟨wr, hwr, heq⟩ := List.mem_map.mp hwt
      have hgt : d.timestamp < wr.timestamp := by
        have := (List.mem_filter.mp hwr).2
        simpa using this
      show 0 ≤ (wt - d.timestamp) / 86400
      exact div_nonneg (by linarith [heq ▸ hgt]) (by norm_num)
    | none =>
      show 0 ≤ (now - d.timestamp) / 86400
      exact div_nonneg (by linarith [hts d hdm]) (by norm_num)

/-- The first component of calculate_final_score is the weighted sum. -/
lemma calculate_final_score_fst (a b : ℚ) (x : Option LPFeatures) (y : Option SwapFeatures) :
    (calculate_final_score a b x y).1 = a * (6/10) + b * (4/10) := rfl

/-- LP sub-score bounds over any row set with non-negative amounts and
timestamps not beyond now. -/
lemma lp_score_of_rows_bounds (now : ℚ) (df : List Row)
    (hnn : ∀ r ∈ df, 0 ≤ r.amount_usd.getD 0)
    (hts : ∀ r ∈ df, r.timestamp ≤ now) :
    0 ≤ (calculate_lp_score (calculate_lp_features now df)).1
      ∧ (calculate_lp_score (calculate_lp_features now df)).1 ≤ 1000 := by
  unfold calculate_lp_features
  split_ifs with hdf
  · simp [calculate_lp_score]
  · have htd : 0 ≤ ((df.filter (fun r => r.action = "deposit")).map
        (fun r => r.amount_usd.getD 0)).sum := sum_amounts_nonneg hnn _
    have htw : 0 ≤ ((df.filter (fun r => r.action = "withdraw")).map
        (fun r => r.amount_usd.getD 0)).sum := sum_amounts_nonneg hnn _
    have hhold : 0 ≤ calculate_holding_time now (df.filter (fun r => r.action = "deposit"))
        (df.filter (fun r => r.action = "withdraw")) :=
      calculate_holding_time_nonneg (fun d hd => hts d (List.mem_filter.mp hd).1)
    have hratio : 0 ≤ (if ((df.filter (fun r => r.action = "deposit")).map
          (fun r => r.amount_usd.getD 0)).sum > 0 then
        ((df.filter (fun r => r.action = "withdraw")).map (fun r => r.amount_usd.getD 0)).sum
          / ((df.filter (fun r => r.action = "deposit")).map (fun r => r.amount_usd.getD 0)).sum
      else 0) := by
      split_ifs with hpos
      · exact div_nonneg htw (le_of_lt hpos)
      · exact le_refl 0
    simp only [calculate_lp_score]
    constructor
    · have c1 : 0 ≤ min (((df.filter (fun r => r.action = "deposit")).map
          (fun r => r.amount_usd.getD 0)).sum / 10000 * 300) 300 :=
        le_min (mul_nonneg (div_nonneg htd (by norm_num)) (by norm_num)) (by norm_num)
      have c2 : (0:ℚ) ≤ min (((df.filter (fun r => r.action = "deposit")).length : ℚ) * 20) 200 :=
        le_min (mul_nonneg (Nat.cast_nonneg _) (by norm_num)) (by norm_num)
      have c4 : 0 ≤ min (calculate_holding_time now (df.filter (fun r => r.action = "deposit"))
          (df.filter (fun r => r.action = "withdraw")) / 30 * 150) 150 :=
        le_min (mul_nonneg (div_nonneg hhold (by norm_num)) (by norm_num)) (by norm_num)
      have c5 : (0:ℚ) ≤ min (((df.map (fun r => r.pool_id)).dedup.length : ℚ) * 20) 100 :=
        le_min (mul_nonneg (Nat.cast_nonneg _) (by norm_num)) (by norm_num)
      have c3 := le_max_left (0:ℚ)
        ((1 - (if ((df.filter (fun r => r.action = "deposit")).map
            (fun r => r.amount_usd.getD 0)).sum > 0 then
          ((df.filter (fun r => r.action = "withdraw")).map (fun r => r.amount_usd.getD 0)).sum
            / ((df.filter (fun r => r.action = "deposit")).map (fun r => r.amount_usd.getD 0)).sum
        else 0)) * 250)
      linarith
    · have c1 : min (((df.filter (fun r => r.action = "deposit")).map
          (fun r => r.amount_usd.getD 0)).sum / 10000 * 300) 300 ≤ 300 := min_le_right _ _
      have c2 : min (((df.filter (fun r => r.action = "deposit")).length : ℚ) * 20) 200 ≤ 200 :=
        min_le_right _ _
      have c4 : min (calculate_holding_time now (df.filter (fun r => r.action = "deposit"))
          (df.filter (fun r => r.action = "withdraw")) / 30 * 150) 150 ≤ 150 := min_le_right _ _
      have c5 : min (((df.map (fun r => r.pool_id)).dedup.length : ℚ) * 20) 100 ≤ 100 :=
        min_le_right _ _
      have c3 : max 0 ((1 - (if ((df.filter (fun r => r.action = "deposit")).map
            (fun r => r.amount_usd.getD 0)).sum > 0 then
          ((df.filter (fun r => r.action = "withdraw")).map (fun r => r.amount_usd.getD 0)).sum
            / ((df.filter (fun r => r.action = "deposit")).map (fun r => r.amount_usd.getD 0)).sum
        else 0)) * 250) ≤ 250 := max_le (by norm_num) (by nlinarith [hratio])
      linarith

/-- The swap frequency score is one of the discrete bucket values, hence
between 0 and 100. -/
lemma swap_frequency_bounds (swaps : List Row) :
    0 ≤ swap_frequency swaps ∧ swap_frequency swaps ≤ 100 := by
  unfold swap_frequency
  dsimp only
  split_ifs <;> norm_num

/-- The token diversity score never exceeds its 150 cap. -/
lemma token_diversity_le (swaps : List Row) : token_diversity swaps ≤ 150 := by
  unfold token_diversity
  split_ifs
  · norm_num
  · exact min_le_right _ _

/-- Swap sub-score bounds for any present feature record whose volume is
non-negative and whose pass-through fields are in extractor range. -/
lemma swap_score_some_bounds (f : SwapFeatures) (htv : 0 ≤ f.total_swap_volume)
    (hdiv : (f.token_diversity_score : ℚ) ≤ 150)
    (hf0 : 0 ≤ f.swap_frequency_score) (hf1 : f.swap_frequency_score ≤ 100) :
    0 ≤ (calculate_swap_score (some f)).1 ∧ (calculate_swap_score (some f)).1 ≤ 800 := by
  have c1a : 0 ≤ min (f.total_swap_volume / 50000 * 250) 250 :=
    le_min (mul_nonneg (div_nonneg htv (by norm_num)) (by norm_num)) (by norm_num)
  have c1b : min (f.total_swap_volume / 50000 * 250) 250 ≤ 250 := min_le_right _ _
  have c2a : (0:ℚ) ≤ min ((f.num_swaps : ℚ) * 10) 200 :=
    le_min (mul_nonneg (Nat.cast_nonneg _) (by norm_num)) (by norm_num)
  have c2b : min ((f.num_swaps : ℚ) * 10) 200 ≤ 200 := min_le_right _ _
  have c3a : (0:ℚ) ≤ (f.token_diversity_score : ℚ) := Nat.cast_nonneg _
  have c5a : (0:ℚ) ≤ min ((f.unique_pools_swapped : ℚ) * 25) 100 :=
    le_min (mul_nonneg (Nat.cast_nonneg _) (by norm_num)) (by norm_num)
  have c5b : min ((f.unique_pools_swapped : ℚ) * 25) 100 ≤ 100 := min_le_right _ _
  simp only [calculate_swap_score]
  exact ⟨by linarith, by linarith⟩

/-- Swap sub-score bounds over any row set with non-negative amounts. -/
lemma swap_score_of_rows_bounds (df : List Row)
    (hnn : ∀ r ∈ df, 0 ≤ r.amount_usd.getD 0) :
    0 ≤ (calculate_swap_score (calculate_swap_features df)).1
      ∧ (calculate_swap_score (calculate_swap_features df)).1 ≤ 800 := by
  unfold calculate_swap_features
  dsimp only
  split_ifs with hdf hsw hlen
  · simp [calculate_swap_score]
  · norm_num [calculate_swap_score]
  · exact swap_score_some_bounds _ (sum_amounts_nonneg hnn _)
      (by exact_mod_cast token_diversity_le _)
      (swap_frequency_bounds _).1 (swap_frequency_bounds _).2
  · exact swap_score_some_bounds _ (sum_amounts_nonneg hnn _)
      (by exact_mod_cast token_diversity_le _)
      (swap_frequency_bounds _).1 (swap_frequency_bounds _).2

/-- A message with some DEX group holding at least one transaction
normalizes to a nonempty row set. -/
lemma preprocess_ne_nil {w : WalletMessage}
    (hne : ∃ g ∈ w.data, g.protocolType = "dexes" ∧ g.transactions ≠ []) :
    preprocess_dex_transactions w ≠ [] := by
  obtain ⟨g, hg, hgdex, hgne⟩ := hne
  obtain ⟨tx, htx⟩ := List.exists_mem_of_ne_nil _ hgne
  have hmem : normalizeTx w.wallet_address tx ∈ preprocess_dex_transactions w := by
    unfold preprocess_dex_transactions
    simp only [List.mem_flatMap, List.mem_filter, List.mem_map]
    exact ⟨g, ⟨hg, by simp [hgdex]⟩, tx, htx, rfl⟩
  exact List.ne_nil_of_mem hmem

/-- Rows normalized from DEX groups holding only unrecognized actions
carry none of the three recognized actions. -/
lemma preprocess_actions_unknown {w : WalletMessage}
    (hact : ∀ g ∈ w.data, g.protocolType = "dexes" →
        ∀ tx ∈ g.transactions,
          tx.action ≠ "swap" ∧ tx.action ≠ "deposit" ∧ tx.action ≠ "withdraw") :
    ∀ r ∈ preprocess_dex_transactions w,
      r.action ≠ "swap" ∧ r.action ≠ "deposit" ∧ r.action ≠ "withdraw" := by
  intro r hr
  obtain ⟨g, hg, hgdex, tx, htx, rfl⟩ := preprocess_mem hr
  simp only [normalizeTx_action]
  exact hact g hg hgdex tx htx

/-- With rows present but no deposit and no withdraw rows, the LP score
is the full 250 retention plus at least 20 pool diversity. -/
lemma lp_score_no_dw_ge_270 (now : ℚ) (df : List Row) (hdf : df ≠ [])
    (hdep : df.filter (fun r => r.action = "deposit") = [])
    (hwd : df.filter (fun r => r.action = "withdraw") = []) :
    270 ≤ (calculate_lp_score (calculate_lp_features now df)).1 := by
  have hpools : (1:ℚ) ≤ ((df.map (fun r => r.pool_id)).dedup.length : ℚ) := by
    have hne : (df.map (fun r => r.pool_id)).dedup ≠ [] := by
      intro h
      exact hdf (List.map_eq_nil_iff.mp ((List.dedup_eq_nil _).mp h))
    exact_mod_cast Nat.one_le_iff_ne_zero.mpr
      (by simpa [List.length_eq_zero] using hne)
  have hfeat : calculate_lp_features now df = some
      { total_deposit_usd := 0, total_withdraw_usd := 0,
        num_deposits := 0, num_withdraws := 0, withdraw_ratio := 0,
        avg_hold_time_days := 0,
        account_age_days := ((listMax (df.map (fun r => r.timestamp))).getD 0
          - (listMin (df.map (fun r => r.timestamp))).getD 0) / 86400,
        unique_pools := (df.map (fun r => r.pool_id)).dedup.length } := by
    unfold calculate_lp_features
    rw [if_neg hdf]
    dsimp only
    rw [hdep, hwd]
    simp [calculate_holding_time]
  rw [hfeat]
  simp only [calculate_lp_score]
  have hmin : (20:ℚ) ≤ min (((df.map (fun r => r.pool_id)).dedup.length : ℚ) * 20) 100 :=
    le_min (by nlinarith [hpools]) (by norm_num)
  norm_num
  linarith

/-- With rows present but no swap rows, the swap score is 0. -/
lemma swap_score_no_swaps (df : List Row) (hdf : df ≠ [])
    (hsw : df.filter (fun r => r.action = "swap") = []) :
    (calculate_swap_score (calculate_swap_features df)).1 = 0 := by
  unfold calculate_swap_features
  rw [if_neg hdf]
  dsimp only
  rw [hsw]
  norm_num [calculate_swap_score]

/-! Claim theorems. -/

/-- Claim C5: for every pair of LP and swap sub-scores (and any feature
dicts), the final score computed by calculate_final_score equals 0.6
times the LP score plus 0.4 times the swap score. -/
theorem final_score_is_weighted_sum (lp_score swap_score : ℚ)
    (lp_features : Option LPFeatures) (swap_features : Option SwapFeatures) :
    (calculate_final_score lp_score swap_score lp_features swap_features).1
      = (0.6 : ℚ) * lp_score + (0.4 : ℚ) * swap_score := by
  show lp_score * (6/10) + swap_score * (4/10) = (0.6 : ℚ) * lp_score + (0.4 : ℚ) * swap_score
  norm_num
  ring

/-- Claim C9: the tag list returned by generate_user_tags has at most 5
entries and never contains the same tag twice, for every pair of LP and
swap feature records. -/
theorem user_tags_at_most_five_nodup (lp_features : LPFeatures) (swap_features : SwapFeatures) :
    (generate_user_tags lp_features swap_features).length ≤ 5
      ∧ (generate_user_tags lp_features swap_features).Nodup := by
  unfold generate_user_tags
  exact tags_concat_ok _ _ _ _ _
    (by split_ifs <;> simp) (by split_ifs <;> simp) (by split_ifs <;> simp)
    (by split_ifs <;> simp) (by split_ifs <;> simp)

/-- Claim C7: process_wallet populates exactly one of the success and
failure payloads, and the populated payload carries exactly one of the
zscore field and the error field. -/
theorem process_wallet_exactly_one (now : ℚ) (w : WalletMessage) :
    exactlyOnePayload (process_wallet now w) := by
  cases h : (process_wallet_complete now w).2.1 <;>
    simp [process_wallet, h, exactlyOnePayload]

/-- Claim C6: a wallet message whose groups are all non-DEX (in
particular one with no groups at all) produces the terminal failure
payload with the message No valid transactions found and transaction
count 0 — never a partial score. -/
theorem no_dex_data_yields_failure (now : ℚ) (w : WalletMessage)
    (h : ∀ g ∈ w.data, g.protocolType ≠ "dexes") :
    process_wallet now w =
      (none,
        some { wallet_address := w.wallet_address, zscore := none,
               error := some "No valid transactions found",
               timestamp := now, processing_time_ms := 0,
               categories := [{ category := "dexes", score := none,
                                error := some "No valid transactions found",
                                transaction_count := 0, features := none }] }) := by
  have hgroups : w.data.filter (fun g => g.protocolType = "dexes") = [] :=
    List.filter_eq_nil_iff.mpr (by intro g hg; simpa using h g hg)
  have hdf : preprocess_dex_transactions w = [] := by
    unfold preprocess_dex_transactions
    simp [hgroups]
  simp [process_wallet, process_wallet_complete, choose_timestamp, hdf, listMin]

/-- Witness for claim C6 at a message with a single lending group. -/
theorem no_dex_data_yields_failure_witness :
    (∀ g ∈ msgNonDex.data, g.protocolType ≠ "dexes")
      ∧ process_wallet 7 msgNonDex =
        (none,
          some { wallet_address := "w", zscore := none,
                 error := some "No valid transactions found",
                 timestamp := 7, processing_time_ms := 0,
                 categories := [{ category := "dexes", score := none,
                                  error := some "No valid transactions found",
                                  transaction_count := 0, features := none }] }) := by
  have h : ∀ g ∈ msgNonDex.data, g.protocolType ≠ "dexes" := by
    intro g hg
    simp only [msgNonDex, List.mem_singleton] at hg
    simp [hg]
  exact ⟨h, no_dex_data_yields_failure 7 msgNonDex h⟩

/-- Claim C1 (evidence of divergence): running the consume loop on a
message whose scoring raises, followed by one that scores, increments
total_consumed twice, total_failed once and total_scored once — the
loop continues past the failure — but the outbox holds only the scored
message: no failure payload is produced for the failed wallet, contrary
to the claim and to the failure payloads DexModel.process_wallet builds
ready for the outbound stream. -/
theorem consume_failure_produces_nothing :
    kafkaConsume scoreOracle true [msgScoreRaises, msgScoreOk] =
      { stats := { total_consumed := 2, total_scored := 1,
                   total_failed := 1, total_produced := 1 },
        outbox := [{ wallet := none, score := 5 }] } := by
  simp [kafkaConsume, consumeStep, kafkaProduce, scoreOracle, msgScoreRaises, msgScoreOk]

/-- Claim C8 counterexample: on a row set whose deposit row carries a
negative recorded USD amount, deposit rows exist yet the code's guard
returns withdraw_ratio 0 while total_withdraw_usd divided by
total_deposit_usd is -8 — so the ratio does not equal the quotient when
deposits exist, refuting the claim's first clause at a concrete input. -/
theorem withdraw_ratio_deposits_exist_cex :
    dfNegDeposit.filter (fun r => r.action = "deposit") ≠ []
      ∧ calculate_lp_features 0 dfNegDeposit = some fNegDeposit
      ∧ fNegDeposit.withdraw_ratio = 0
      ∧ fNegDeposit.total_withdraw_usd / fNegDeposit.total_deposit_usd ≠ 0 := by
  refine ⟨by simp [dfNegDeposit], ?_, by norm_num [fNegDeposit], by norm_num [fNegDeposit]⟩
  simp [calculate_lp_features, calculate_holding_time, listMin, listMax, dfNegDeposit, fNegDeposit]
  norm_num

/-- Claim C8 amended: the withdraw ratio computed by
calculate_lp_features equals total_withdraw_usd divided by
total_deposit_usd if total_deposit_usd is strictly positive and 0
otherwise — so also 0 when deposit rows exist but their amounts sum to
zero or below; in particular it is 0 whenever total_deposit_usd is 0,
and since the division is reached only under the strict-positivity
guard, no division by zero is ever performed. Proved unconditionally
for every row set the extractor produces features for. -/
theorem withdraw_ratio_matches_guard (now : ℚ) (df : List Row) (f : LPFeatures)
    (hf : calculate_lp_features now df = some f) :
    (f.withdraw_ratio
        = if f.total_deposit_usd > 0 then f.total_withdraw_usd / f.total_deposit_usd else 0)
      ∧ (f.total_deposit_usd = 0 → f.withdraw_ratio = 0) := by
  by_cases hdf : df = []
  · simp [calculate_lp_features, hdf] at hf
  · simp only [calculate_lp_features, if_neg hdf, Option.some_inj] at hf
    subst hf
    dsimp only
    refine ⟨rfl, ?_⟩
    intro hz
    simp [hz]

/-- Witness for claim C8 amended at a two-row deposit-and-withdraw set. -/
theorem withdraw_ratio_matches_guard_witness :
    calculate_lp_features 0 dfRatio = some fRatio
      ∧ ((fRatio.withdraw_ratio
            = if fRatio.total_deposit_usd > 0 then
                fRatio.total_withdraw_usd / fRatio.total_deposit_usd
              else 0)
          ∧ (fRatio.total_deposit_usd = 0 → fRatio.withdraw_ratio = 0)) := by
  have hf : calculate_lp_features 0 dfRatio = some fRatio := by
    simp [calculate_lp_features, calculate_holding_time, listMin, listMax, dfRatio, fRatio]
    norm_num
  exact ⟨hf, withdraw_ratio_matches_guard 0 dfRatio fRatio hf⟩

/-- Claim C3 counterexample: on a wallet with a single deposit and no
withdraw, the pipeline read at two different wall-clock instants returns
two different final scores for identical input rows (879/5 at the
deposit instant versus 1329/5 thirty days later), because the holding
time falls back to the current time. -/
theorem final_score_differs_across_time_cex :
    (process_wallet_complete 1000 msgLoneDeposit).1
      ≠ (process_wallet_complete 2593000 msgLoneDeposit).1 := by
  simp [process_wallet_complete, preprocess_dex_transactions, normalizeTx, msgLoneDeposit,
    calculate_lp_features, calculate_lp_score, calculate_swap_features, calculate_swap_score,
    calculate_final_score, calculate_holding_time, token_diversity, swap_frequency,
    listMin, listMax, stable_tokens, List.filter, List.flatMap, List.dedup, min_def, max_def]
  norm_num

/-- The holding time does not depend on the current time when every
deposit row has some strictly later withdraw row. -/
lemma calculate_holding_time_time_invariant (now₁ now₂ : ℚ) (deposits withdraws : List Row)
    (h : ∀ d ∈ deposits, ∃ wr ∈ withdraws, d.timestamp < wr.timestamp) :
    calculate_holding_time now₁ deposits withdraws
      = calculate_holding_time now₂ deposits withdraws := by
  unfold calculate_holding_time
  by_cases hd : deposits = []
  · simp [hd]
  · rw [if_neg hd, if_neg hd]
    have hmap : deposits.map (fun d =>
        match listMin ((withdraws.filter (fun wr => wr.timestamp > d.timestamp)).map
            (fun wr => wr.timestamp)) with
        | some withdraw_time => (withdraw_time - d.timestamp) / 86400
        | none => (now₁ - d.timestamp) / 86400)
      = deposits.map (fun d =>
        match listMin ((withdraws.filter (fun wr => wr.timestamp > d.timestamp)).map
            (fun wr => wr.timestamp)) with
        | some withdraw_time => (withdraw_time - d.timestamp) / 86400
        | none => (now₂ - d.timestamp) / 86400) := by
      apply List.map_congr_left
      intro d hdmem
      obtain ⟨wr, hwr, hlt⟩ := h d hdmem
      cases hmin : listMin ((withdraws.filter (fun wr2 => wr2.timestamp > d.timestamp)).map
          (fun wr2 => wr2.timestamp)) with
      | none =>
        exfalso
        have hnil := listMin_eq_none.mp hmin
        have hmem : wr.timestamp ∈ (withdraws.filter (fun wr2 => wr2.timestamp > d.timestamp)).map
            (fun wr2 => wr2.timestamp) :=
          List.mem_map_of_mem _ (List.mem_filter.mpr ⟨hwr, by simpa using hlt⟩)
        rw [hnil] at hmem
        cases hmem
      | some wt => rfl
    rw [hmap]

/-- The LP features do not depend on the current time when every deposit
row has some strictly later withdraw row. -/
lemma calculate_lp_features_time_invariant (now₁ now₂ : ℚ) (df : List Row)
    (h : ∀ d ∈ df.filter (fun r => r.action = "deposit"),
        ∃ wr ∈ df.filter (fun r => r.action = "withdraw"), d.timestamp < wr.timestamp) :
    calculate_lp_features now₁ df = calculate_lp_features now₂ df := by
  unfold calculate_lp_features
  by_cases hdf : df = []
  · simp [hdf]
  · rw [if_neg hdf, if_neg hdf]
    dsimp only
    rw [calculate_holding_time_time_invariant now₁ now₂ _ _ h]

/-- Claim C3 amended: the final score is a deterministic function of the
input rows and of the evaluation wall-clock time; it is independent of
the evaluation time — hence identical across re-runs on identical
input — whenever every deposit row is followed by some strictly later
withdraw row (in particular when there are no deposit rows). An
unmatched deposit makes the score depend on the wall clock through the
holding-time fallback. -/
theorem final_score_deterministic (now₁ now₂ : ℚ) (w : WalletMessage)
    (h : ∀ d ∈ (preprocess_dex_transactions w).filter (fun r => r.action = "deposit"),
        ∃ wr ∈ (preprocess_dex_transactions w).filter (fun r => r.action = "withdraw"),
          d.timestamp < wr.timestamp) :
    (process_wallet_complete now₁ w).1 = (process_wallet_complete now₂ w).1 := by
  simp only [process_wallet_complete]
  rw [calculate_lp_features_time_invariant now₁ now₂ _ h]

/-- Witness for claim C3 amended at the shipped sample message, whose
deposit is followed by a later withdraw, at two instants a day apart. -/
theorem final_score_deterministic_witness :
    (∀ d ∈ (preprocess_dex_transactions sampleMsg).filter (fun r => r.action = "deposit"),
        ∃ wr ∈ (preprocess_dex_transactions sampleMsg).filter (fun r => r.action = "withdraw"),
          d.timestamp < wr.timestamp)
      ∧ (process_wallet_complete 1704067200 sampleMsg).1
          = (process_wallet_complete 1704153600 sampleMsg).1 := by
  have h : ∀ d ∈ (preprocess_dex_transactions sampleMsg).filter (fun r => r.action = "deposit"),
      ∃ wr ∈ (preprocess_dex_transactions sampleMsg).filter (fun r => r.action = "withdraw"),
        d.timestamp < wr.timestamp := by
    intro d hd
    simp [preprocess_dex_transactions, normalizeTx, sampleMsg, List.filter, List.flatMap] at hd ⊢
    subst hd
    norm_num
  exact ⟨h, final_score_deterministic 1704067200 1704153600 sampleMsg h⟩

/-- Claim C4 counterexample: calculate_swap_score applies no cap of its
own to the diversity component; a feature set whose token diversity
value is 1000 yields a diversity component of 1000, far above the
stated 150 cap (and the component is likewise not forced non-negative
for negative feature inputs). -/
theorem swap_diversity_component_uncapped_cex :
    (150 : ℚ) < (swapBreakdownOf swfOverDiversity).diversity_score := by
  norm_num [swapBreakdownOf, calculate_swap_score, swfOverDiversity]

/-- Claim C4 amended: every sub-score component of calculate_lp_score
and calculate_swap_score is non-negative and capped at its stated cap
(LP volume 300, frequency 200, retention 250, holding 150, diversity
100; swap volume 250, frequency 200, diversity 150, activity 100, pool
diversity 100) provided the scored feature fields are non-negative and
the two pass-through fields — token_diversity_score and
swap_frequency_score — are within the bounds the extractor guarantees;
the scorer itself does not clamp those two components. -/
theorem sub_components_nonneg_and_capped (lf : LPFeatures) (sf : SwapFeatures)
    (h1 : 0 ≤ lf.total_deposit_usd) (h2 : 0 ≤ lf.withdraw_ratio)
    (h3 : 0 ≤ lf.avg_hold_time_days)
    (h4 : 0 ≤ sf.total_swap_volume) (h5 : sf.token_diversity_score ≤ 150)
    (h6 : 0 ≤ sf.swap_frequency_score) (h7 : sf.swap_frequency_score ≤ 100) :
    (0 ≤ (lpBreakdownOf lf).volume_score ∧ (lpBreakdownOf lf).volume_score ≤ 300)
      ∧ (0 ≤ (lpBreakdownOf lf).frequency_score ∧ (lpBreakdownOf lf).frequency_score ≤ 200)
      ∧ (0 ≤ (lpBreakdownOf lf).retention_score ∧ (lpBreakdownOf lf).retention_score ≤ 250)
      ∧ (0 ≤ (lpBreakdownOf lf).holding_score ∧ (lpBreakdownOf lf).holding_score ≤ 150)
      ∧ (0 ≤ (lpBreakdownOf lf).diversity_score ∧ (lpBreakdownOf lf).diversity_score ≤ 100)
      ∧ (0 ≤ (swapBreakdownOf sf).volume_score ∧ (swapBreakdownOf sf).volume_score ≤ 250)
      ∧ (0 ≤ (swapBreakdownOf sf).frequency_score ∧ (swapBreakdownOf sf).frequency_score ≤ 200)
      ∧ (0 ≤ (swapBreakdownOf sf).diversity_score ∧ (swapBreakdownOf sf).diversity_score ≤ 150)
      ∧ (0 ≤ (swapBreakdownOf sf).activity_score ∧ (swapBreakdownOf sf).activity_score ≤ 100)
      ∧ (0 ≤ (swapBreakdownOf sf).pool_diversity_score
          ∧ (swapBreakdownOf sf).pool_diversity_score ≤ 100) := by
  have hvol : 0 ≤ lf.total_deposit_usd / 10000 * 300 :=
    mul_nonneg (div_nonneg h1 (by norm_num)) (by norm_num)
  have hhold : 0 ≤ lf.avg_hold_time_days / 30 * 150 :=
    mul_nonneg (div_nonneg h3 (by norm_num)) (by norm_num)
  have hret : (1 - lf.withdraw_ratio) * 250 ≤ 250 := by nlinarith [h2]
  have hsvol : 0 ≤ sf.total_swap_volume / 50000 * 250 :=
    mul_nonneg (div_nonneg h4 (by norm_num)) (by norm_num)
  have hdiv : ((sf.token_diversity_score : ℚ)) ≤ 150 := by exact_mod_cast h5
  simp only [lpBreakdownOf, swapBreakdownOf, calculate_lp_score, calculate_swap_score,
    Option.getD_some]
  exact ⟨⟨le_min hvol (by norm_num), min_le_right _ _⟩,
    ⟨le_min (mul_nonneg (Nat.cast_nonneg _) (by norm_num)) (by norm_num), min_le_right _ _⟩,
    ⟨le_max_left 0 _, max_le (by norm_num) hret⟩,
    ⟨le_min hhold (by norm_num), min_le_right _ _⟩,
    ⟨le_min (mul_nonneg (Nat.cast_nonneg _) (by norm_num)) (by norm_num), min_le_right _ _⟩,
    ⟨le_min hsvol (by norm_num), min_le_right _ _⟩,
    ⟨le_min (mul_nonneg (Nat.cast_nonneg _) (by norm_num)) (by norm_num), min_le_right _ _⟩,
    ⟨Nat.cast_nonneg _, hdiv⟩,
    ⟨h6, h7⟩,
    ⟨le_min (mul_nonneg (Nat.cast_nonneg _) (by norm_num)) (by norm_num), min_le_right _ _⟩⟩

/-- Witness for claim C4 amended at feature records whose inputs wildly
exceed every cap threshold. -/
theorem sub_components_nonneg_and_capped_witness :
    (0 ≤ lfBig.total_deposit_usd) ∧ (0 ≤ lfBig.withdraw_ratio)
      ∧ (0 ≤ lfBig.avg_hold_time_days)
      ∧ (0 ≤ sfBig.total_swap_volume) ∧ (sfBig.token_diversity_score ≤ 150)
      ∧ (0 ≤ sfBig.swap_frequency_score) ∧ (sfBig.swap_frequency_score ≤ 100)
      ∧ ((0 ≤ (lpBreakdownOf lfBig).volume_score ∧ (lpBreakdownOf lfBig).volume_score ≤ 300)
          ∧ (0 ≤ (lpBreakdownOf lfBig).frequency_score ∧ (lpBreakdownOf lfBig).frequency_score ≤ 200)
          ∧ (0 ≤ (lpBreakdownOf lfBig).retention_score ∧ (lpBreakdownOf lfBig).retention_score ≤ 250)
          ∧ (0 ≤ (lpBreakdownOf lfBig).holding_score ∧ (lpBreakdownOf lfBig).holding_score ≤ 150)
          ∧ (0 ≤ (lpBreakdownOf lfBig).diversity_score ∧ (lpBreakdownOf lfBig).diversity_score ≤ 100)
          ∧ (0 ≤ (swapBreakdownOf sfBig).volume_score ∧ (swapBreakdownOf sfBig).volume_score ≤ 250)
          ∧ (0 ≤ (swapBreakdownOf sfBig).frequency_score ∧ (swapBreakdownOf sfBig).frequency_score ≤ 200)
          ∧ (0 ≤ (swapBreakdownOf sfBig).diversity_score ∧ (swapBreakdownOf sfBig).diversity_score ≤ 150)
          ∧ (0 ≤ (swapBreakdownOf sfBig).activity_score ∧ (swapBreakdownOf sfBig).activity_score ≤ 100)
          ∧ (0 ≤ (swapBreakdownOf sfBig).pool_diversity_score
              ∧ (swapBreakdownOf sfBig).pool_diversity_score ≤ 100)) :=
  ⟨by norm_num [lfBig], by norm_num [lfBig], by norm_num [lfBig],
   by norm_num [sfBig], by norm_num [sfBig], by norm_num [sfBig], by norm_num [sfBig],
   sub_components_nonneg_and_capped lfBig sfBig
     (by norm_num [lfBig]) (by norm_num [lfBig]) (by norm_num [lfBig])
     (by norm_num [sfBig]) (by norm_num [sfBig]) (by norm_num [sfBig]) (by norm_num [sfBig])⟩

/-- Claim C2 counterexample: a wallet message whose withdraw carries a
negative recorded USD amount drives the withdraw ratio to -10000, the
retention component to 2500250 and the final score above 1.5 million —
far outside the claimed interval of 0 to 1000. -/
theorem final_score_above_1000_cex :
    (1000 : ℚ) < (process_wallet_complete 0 msgNegWithdraw).1 := by
  simp [process_wallet_complete, preprocess_dex_transactions, normalizeTx, msgNegWithdraw,
    calculate_lp_features, calculate_lp_score, calculate_swap_features, calculate_swap_score,
    calculate_final_score, calculate_holding_time, token_diversity, swap_frequency,
    listMin, listMax, stable_tokens, List.filter, List.flatMap, List.dedup, min_def, max_def]
  norm_num

/-- Claim C2 amended: for every wallet message whose transactions carry
only non-negative token USD amounts and whose timestamps do not exceed
the evaluation time, the final score of the scoring pipeline lies in the
interval from 0 to 1000. -/
theorem final_score_in_0_1000 (now : ℚ) (w : WalletMessage)
    (hamt : ∀ g ∈ w.data, ∀ tx ∈ g.transactions, txAmountsNonneg tx)
    (hts : ∀ g ∈ w.data, ∀ tx ∈ g.transactions, tx.timestamp ≤ now) :
    0 ≤ (process_wallet_complete now w).1 ∧ (process_wallet_complete now w).1 ≤ 1000 := by
  have hnn := preprocess_rows_nonneg hamt
  have hts2 := preprocess_rows_ts_le hts
  simp only [process_wallet_complete]
  split_ifs with hdf
  · norm_num
  · have hlp := lp_score_of_rows_bounds now _ hnn hts2
    have hsw := swap_score_of_rows_bounds _ hnn
    rw [calculate_final_score_fst]
    exact ⟨by linarith [hlp.1, hsw.1], by linarith [hlp.2, hsw.2]⟩

/-- Witness for claim C2 amended at the shipped sample message. -/
theorem final_score_in_0_1000_witness :
    (∀ g ∈ sampleMsg.data, ∀ tx ∈ g.transactions, txAmountsNonneg tx)
      ∧ (∀ g ∈ sampleMsg.data, ∀ tx ∈ g.transactions, tx.timestamp ≤ 1704067200)
      ∧ (0 ≤ (process_wallet_complete 1704067200 sampleMsg).1
          ∧ (process_wallet_complete 1704067200 sampleMsg).1 ≤ 1000) := by
  have hamt : ∀ g ∈ sampleMsg.data, ∀ tx ∈ g.transactions, txAmountsNonneg tx := by
    intro g hg tx htx
    simp only [sampleMsg, List.mem_singleton] at hg
    subst hg
    simp only [txAmountsNonneg]
    fin_cases htx <;> norm_num
  have hts : ∀ g ∈ sampleMsg.data, ∀ tx ∈ g.transactions, tx.timestamp ≤ 1704067200 := by
    intro g hg tx htx
    simp only [sampleMsg, List.mem_singleton] at hg
    subst hg
    fin_cases htx <;> norm_num
  exact ⟨hamt, hts, final_score_in_0_1000 1704067200 sampleMsg hamt hts⟩

/-- Claim C10: a wallet whose DEX groups are nonempty but hold only
transactions with unrecognized actions is scored successfully (the rows
are carried through without amounts, so the row set is nonempty and no
terminal failure fires), and the final score is at least
0.6 times (250 + 20) = 162: retention contributes its full 250 and the
LP pool-diversity component at least 20, while every other component and
the whole swap score are 0. -/
theorem unknown_actions_scored (now : ℚ) (w : WalletMessage)
    (hne : ∃ g ∈ w.data, g.protocolType = "dexes" ∧ g.transactions ≠ [])
    (hact : ∀ g ∈ w.data, g.protocolType = "dexes" →
        ∀ tx ∈ g.transactions,
          tx.action ≠ "swap" ∧ tx.action ≠ "deposit" ∧ tx.action ≠ "withdraw") :
    (process_wallet now w).1.isSome = true ∧ (process_wallet now w).2 = none
      ∧ 162 ≤ (process_wallet_complete now w).1 := by
  have hdf := preprocess_ne_nil hne
  have hacts := preprocess_actions_unknown hact
  have hdep : (preprocess_dex_transactions w).filter (fun r => r.action = "deposit") = [] :=
    List.filter_eq_nil_iff.mpr (fun r hr => by simpa using (hacts r hr).2.1)
  have hwd : (preprocess_dex_transactions w).filter (fun r => r.action = "withdraw") = [] :=
    List.filter_eq_nil_iff.mpr (fun r hr => by simpa using (hacts r hr).2.2)
  have hswf : (preprocess_dex_transactions w).filter (fun r => r.action = "swap") = [] :=
    List.filter_eq_nil_iff.mpr (fun r hr => by simpa using (hacts r hr).1)
  have hscore : 162 ≤ (process_wallet_complete now w).1 := by
    simp only [process_wallet_complete]
    rw [if_neg hdf]
    dsimp only
    rw [calculate_final_score_fst, swap_score_no_swaps _ hdf hswf]
    have h1 := lp_score_no_dw_ge_270 now _ hdf hdep hwd
    linarith
  have hok : ∃ c, (process_wallet_complete now w).2.1 = Except.ok c := by
    simp only [process_wallet_complete]
    rw [if_neg hdf]
    exact ⟨_, rfl⟩
  obtain ⟨c, hc⟩ := hok
  refine ⟨?_, ?_, hscore⟩ <;> simp [process_wallet, hc]

/-- Witness for claim C10 at a message whose single DEX transaction has
the unrecognized action borrow. -/
theorem unknown_actions_scored_witness :
    (∃ g ∈ msgUnknownAction.data, g.protocolType = "dexes" ∧ g.transactions ≠ [])
      ∧ (∀ g ∈ msgUnknownAction.data, g.protocolType = "dexes" →
          ∀ tx ∈ g.transactions,
            tx.action ≠ "swap" ∧ tx.action ≠ "deposit" ∧ tx.action ≠ "withdraw")
      ∧ ((process_wallet 0 msgUnknownAction).1.isSome = true
          ∧ (process_wallet 0 msgUnknownAction).2 = none
          ∧ 162 ≤ (process_wallet_complete 0 msgUnknownAction).1) := by
  have hne : ∃ g ∈ msgUnknownAction.data, g.protocolType = "dexes" ∧ g.transactions ≠ [] := by
    simp [msgUnknownAction]
  have hact : ∀ g ∈ msgUnknownAction.data, g.protocolType = "dexes" →
      ∀ tx ∈ g.transactions,
        tx.action ≠ "swap" ∧ tx.action ≠ "deposit" ∧ tx.action ≠ "withdraw" := by
    intro g hg hgdex tx htx
    simp only [msgUnknownAction, List.mem_singleton] at hg
    subst hg
    simp only [List.mem_singleton] at htx
    subst htx
    simp
  exact ⟨hne, hact, unknown_actions_scored 0 msgUnknownAction hne hact⟩

end AiScoring
